import Mathlib

/-
Verification of the SHT4x temperature/humidity sensor driver.

The driver (sht4x.go, constants.go) is shallowly embedded: bytes are Nat
values below 256, the float64 conversion arithmetic is modelled exactly in ℚ,
bus I/O is recorded as an explicit event trace, and the device handle's
continuous-sampling state (the Go `stop` channel being nil or not) is a
Boolean field.
-/

namespace SHT4X

/-- Command constants from constants.go. -/
def commandHeaterHigh1s : Nat := 0x39

def commandHeaterHigh100ms : Nat := 0x32

def commandHeaterMedium1s : Nat := 0x2F

def commandHeaterMedium100ms : Nat := 0x24

def commandHeaterLow1s : Nat := 0x1E

def commandHeaterLow100ms : Nat := 0x15

def commandMeasureHighPrecision : Nat := 0xFD

def commandReadSerialNumber : Nat := 0x89

def commandSoftReset : Nat := 0x94

/-- Heater mode enumeration (constants.go): Go `iota` values 0..5, as `Int`
because the Go parameter type is a signed int. -/
def HeaterLow : Int := 0

def HeaterLowLong : Int := 1

def HeaterMedium : Int := 2

def HeaterMediumLong : Int := 3

def HeaterHigh : Int := 4

def HeaterHighLong : Int := 5

/-- Error values returned by the driver (Go `error` results). -/
inductive Err
  | busError
  | invalidChecksum
  | invalidDataLength
  | invalidMode
  | alreadySensing
  deriving DecidableEq

/-- A measurement sample (the fields of physic.Env the driver sets):
temperature in degrees Celsius and relative humidity in percent. -/
structure Env where
  temperature : ℚ
  humidity : ℚ
  deriving DecidableEq

/-- A bus interaction: a transaction (bytes written, number of bytes read)
or a sleep of a number of milliseconds. -/
inductive BusEvent
  | tx : List Nat → Nat → BusEvent
  | sleep : Nat → BusEvent
  deriving DecidableEq

/-- The device handle state (struct Dev in sht4x.go): measurement delay in
milliseconds, cached serial number, and whether the continuous-sampling stop
channel is present (Go: d.stop != nil). -/
structure Dev where
  measDelay : Nat
  Serial : Nat
  stop : Bool
  deriving DecidableEq

/-- One shift-and-conditionally-XOR-0x31 step of the CRC-8 inner loop
(sht4x.go lines 292-298), on a byte value kept below 256. -/
def crcRound (crc : Nat) : Nat :=
  if crc &&& 0x80 ≠ 0 then ((crc <<< 1) % 256) ^^^ 0x31 else (crc <<< 1) % 256

/-- Processing of one data byte in checksum: XOR the byte into the
accumulator, then run 8 rounds (sht4x.go lines 291-299). -/
def crcByteStep (crc b : Nat) : Nat := crcRound^[8] (crc ^^^ b)

/-- checksum (sht4x.go lines 288-301): CRC-8 with initial accumulator 0xFF. -/
def checksum (data : List Nat) : Nat := List.foldl crcByteStep 0xFF data

/-- verifyChecksum (sht4x.go lines 278-286); a nil Go error is `none`. -/
def verifyChecksum (data : List Nat) : Option Err :=
  if data.length ≠ 3 then some Err.invalidDataLength
  else if data.getD 2 0 ≠ checksum (data.take 2) then some Err.invalidChecksum
  else none

/-- readUint (sht4x.go lines 274-276). -/
def readUint (msb lsb : Nat) : Nat := (msb <<< 8) ||| lsb

/-- The temperature conversion of parseTemperature (sht4x.go line 155), the
float64 arithmetic modelled exactly in ℚ: degrees Celsius. -/
def ticksToTemperature (ticks : Nat) : ℚ := -45 + 175 * (ticks : ℚ) / 65535

/-- The humidity conversion of parseTemperature (sht4x.go lines 156-163),
including the datasheet clamp to [0, 100] percent. -/
def ticksToHumidity (ticks : Nat) : ℚ :=
  let rh : ℚ := -6 + 125 * (ticks : ℚ) / 65535
  if rh < 0 then 0 else if rh > 100 then 100 else rh

/-- parseTemperature (sht4x.go lines 139-169) as a function of the 6 response
bytes; the first component records the bus traffic (one 6-byte read). -/
def parseTemperature (data : List Nat) : List BusEvent × Except Err Env :=
  ([BusEvent.tx [] 6],
    let tTicks := readUint (data.getD 0 0) (data.getD 1 0)
    match verifyChecksum (data.take 3) with
    | some e => Except.error e
    | none =>
      let rhTicks := readUint (data.getD 3 0) (data.getD 4 0)
      match verifyChecksum (data.drop 3) with
      | some e => Except.error e
      | none => Except.ok ⟨ticksToTemperature tTicks, ticksToHumidity rhTicks⟩)

/-- sense (sht4x.go lines 129-137): send the high-precision measurement
opcode, sleep 10 ms, then read and parse the 6 bytes. -/
def sense (data : List Nat) : List BusEvent × Except Err Env :=
  (BusEvent.tx [commandMeasureHighPrecision] 0 :: BusEvent.sleep 10 ::
      (parseTemperature data).1,
    (parseTemperature data).2)

/-- Sense (sht4x.go lines 64-72): fails fast with the already-sensing error
when the continuous-sampling channel is present, performing no bus traffic. -/
def Sense (d : Dev) (data : List Nat) : List BusEvent × Except Err Env :=
  if d.stop then ([], Except.error Err.alreadySensing) else sense data

/-- Replacing the stop-channel flag of a device handle. -/
def setStop (d : Dev) (b : Bool) : Dev := ⟨d.measDelay, d.Serial, b⟩

/-- Halt (sht4x.go lines 116-127): when no worker is running it returns
immediately; otherwise it closes the stop channel, clears it and joins. -/
def Halt (d : Dev) : Dev × Option Err :=
  if d.stop then (setStop d false, none) else (d, none)

/-- SenseContinuous (sht4x.go lines 81-100): cancels and joins any prior
worker, then starts a new one. The Bool records that a non-nil channel is
returned; the Option Err is the returned error. -/
def SenseContinuous (d : Dev) (interval : Nat) : Dev × Bool × Option Err :=
  let d1 := if d.stop then setStop d false else d
  (setStop d1 true, true, none)

/-- GetSerial (sht4x.go lines 203-221) as a function of the 6 response
bytes read after the serial-number opcode and a 1 ms sleep. -/
def GetSerial (data : List Nat) : List BusEvent × Except Err Nat :=
  ([BusEvent.tx [commandReadSerialNumber] 0, BusEvent.sleep 1, BusEvent.tx [] 6],
    match verifyChecksum (data.take 3) with
    | some e => Except.error e
    | none =>
      match verifyChecksum (data.drop 3) with
      | some e => Except.error e
      | none =>
        Except.ok ((data.getD 0 0) <<< 24 ||| (data.getD 1 0) <<< 16 |||
          (data.getD 3 0) <<< 8 ||| (data.getD 4 0)))

/-- The heater-mode switch of ActivateHeater (sht4x.go lines 229-252):
command byte and hold interval in milliseconds (110 short, 1100 long). -/
def heaterCmd (mode : Int) : Option (Nat × Nat) :=
  if mode = HeaterLow then some (commandHeaterLow100ms, 110)
  else if mode = HeaterLowLong then some (commandHeaterLow1s, 1100)
  else if mode = HeaterMedium then some (commandHeaterMedium100ms, 110)
  else if mode = HeaterMediumLong then some (commandHeaterMedium1s, 1100)
  else if mode = HeaterHigh then some (commandHeaterHigh100ms, 110)
  else if mode = HeaterHighLong then some (commandHeaterHigh1s, 1100)
  else none

/-- ActivateHeater (sht4x.go lines 225-262): validate the mode, send its
command byte, sleep for the hold interval, then read and parse 6 bytes
directly (no measurement opcode). The Dev argument mirrors the Go receiver,
which the body never consults. -/
def ActivateHeater (d : Dev) (mode : Int) (data : List Nat) :
    List BusEvent × Except Err Env :=
  match heaterCmd mode with
  | none => ([], Except.error Err.invalidMode)
  | some ci =>
    (BusEvent.tx [ci.1] 0 :: BusEvent.sleep ci.2 :: (parseTemperature data).1,
      (parseTemperature data).2)

/-- Flip bit (i mod 8) of byte (i / 8) of a byte list. -/
def flipBlock (data : List Nat) (i : Nat) : List Nat :=
  data.set (i / 8) ((data.getD (i / 8) 0) ^^^ (1 <<< (i % 8)))

/-- C3: the temperature conversion is -45 + 175·t/65535 degrees Celsius for
every 16-bit tick value; 0 ticks give -45 °C and 65535 ticks give 130 °C. -/
theorem C3_ticksToTemperature (t : Nat) (h : t < 65536) :
    ticksToTemperature t = -45 + 175 * (t : ℚ) / 65535
    ∧ ticksToTemperature 0 = -45 ∧ ticksToTemperature 65535 = 130 :=
  ⟨rfl, by norm_num [ticksToTemperature], by norm_num [ticksToTemperature]⟩

/-- Witness for C3 at t = 0. -/
theorem C3_witness :
    ticksToTemperature 0 = -45 + 175 * ((0 : Nat) : ℚ) / 65535
    ∧ ticksToTemperature 0 = -45 ∧ ticksToTemperature 65535 = 130 :=
  C3_ticksToTemperature 0 (by norm_num)

/-- C2: the humidity conversion equals -6 + 125·t/65535 clamped to
[0, 100] percent, its output always lies in [0, 100], and 0 ticks give 0 %. -/
theorem C2_ticksToHumidity (t : Nat) (h : t < 65536) :
    ticksToHumidity t = max 0 (min 100 (-6 + 125 * (t : ℚ) / 65535))
    ∧ 0 ≤ ticksToHumidity t ∧ ticksToHumidity t ≤ 100
    ∧ ticksToHumidity 0 = 0 := by
  have key : ∀ s : Nat,
      ticksToHumidity s = max 0 (min 100 (-6 + 125 * (s : ℚ) / 65535)) := by
    intro s
    simp only [ticksToHumidity]
    split_ifs with hneg hbig
    · rw [min_eq_right (by linarith), max_eq_left (by linarith)]
    · rw [min_eq_left (by linarith), max_eq_right (by norm_num)]
    · rw [min_eq_right (by linarith), max_eq_right (by linarith)]
  refine ⟨key t, ?_, ?_, ?_⟩
  · rw [key t]; exact le_max_left 0 _
  · rw [key t]
    exact max_le (by norm_num) (min_le_left 100 _)
  · rw [key 0]; norm_num

/-- Witness for C2 at t = 0. -/
theorem C2_witness :
    ticksToHumidity 0 = max 0 (min 100 (-6 + 125 * ((0 : Nat) : ℚ) / 65535))
    ∧ 0 ≤ ticksToHumidity 0 ∧ ticksToHumidity 0 ≤ 100
    ∧ ticksToHumidity 0 = 0 :=
  C2_ticksToHumidity 0 (by norm_num)

/-- Explicit inverse of crcRound on bytes: the round output is odd exactly
when the high bit of the input was set. -/
def crcRoundInv (y : Nat) : Nat :=
  if y % 2 = 1 then ((y ^^^ 0x31) / 2) + 128 else y / 2

set_option maxRecDepth 4096 in
lemma crcRound_lt_fin : ∀ x : Fin 256, crcRound x.1 < 256 := by decide

set_option maxRecDepth 4096 in
lemma crcRoundInv_crcRound : ∀ x : Fin 256, crcRoundInv (crcRound x.1) = x.1 := by decide

lemma crcRound_lt {a : Nat} (h : a < 256) : crcRound a < 256 :=
  crcRound_lt_fin ⟨a, h⟩

lemma crcRound_inj {a b : Nat} (ha : a < 256) (hb : b < 256)
    (h : crcRound a = crcRound b) : a = b := by
  have h1 := crcRoundInv_crcRound ⟨a, ha⟩
  have h2 := crcRoundInv_crcRound ⟨b, hb⟩
  simp only at h1 h2
  rw [← h1, ← h2, h]

lemma iterate_crcRound_lt (n : Nat) {a : Nat} (h : a < 256) :
    crcRound^[n] a < 256 := by
  induction n generalizing a with
  | zero => simpa using h
  | succ k ih =>
    rw [Function.iterate_succ_apply]
    exact ih (crcRound_lt h)

lemma iterate_crcRound_inj (n : Nat) {a b : Nat} (ha : a < 256) (hb : b < 256)
    (h : crcRound^[n] a = crcRound^[n] b) : a = b := by
  induction n generalizing a b with
  | zero => simpa using h
  | succ k ih =>
    rw [Function.iterate_succ_apply, Function.iterate_succ_apply] at h
    exact crcRound_inj ha hb (ih (crcRound_lt ha) (crcRound_lt hb) h)

lemma xor_lt_256 {a b : Nat} (ha : a < 256) (hb : b < 256) : a ^^^ b < 256 := by
  have h1 : a < 2 ^ 8 := ha
  have h2 : b < 2 ^ 8 := hb
  exact Nat.xor_lt_two_pow h1 h2

lemma crcByteStep_lt {c b : Nat} (hc : c < 256) (hb : b < 256) :
    crcByteStep c b < 256 :=
  iterate_crcRound_lt 8 (xor_lt_256 hc hb)

lemma crcByteStep_inj {c x y : Nat} (hc : c < 256) (hx : x < 256) (hy : y < 256)
    (h : crcByteStep c x = crcByteStep c y) : x = y :=
  Nat.xor_right_inj.mp (iterate_crcRound_inj 8 (xor_lt_256 hc hx) (xor_lt_256 hc hy) h)

lemma crcByteStep_inj_left {c c' b : Nat} (hc : c < 256) (hc' : c' < 256)
    (hb : b < 256) (h : crcByteStep c b = crcByteStep c' b) : c = c' :=
  Nat.xor_left_inj.mp (iterate_crcRound_inj 8 (xor_lt_256 hc hb) (xor_lt_256 hc' hb) h)

lemma checksum_pair (d0 d1 : Nat) :
    checksum [d0, d1] = crcByteStep (crcByteStep 0xFF d0) d1 := rfl

lemma checksum_pair_ne_left {d0 d0' d1 : Nat} (h0 : d0 < 256) (h0' : d0' < 256)
    (h1 : d1 < 256) (hne : d0 ≠ d0') : checksum [d0, d1] ≠ checksum [d0', d1] := by
  intro h
  rw [checksum_pair, checksum_pair] at h
  have hstep := crcByteStep_inj_left (crcByteStep_lt (by norm_num) h0)
    (crcByteStep_lt (by norm_num) h0') h1 h
  exact hne (crcByteStep_inj (by norm_num) h0 h0' hstep)

lemma checksum_pair_ne_right {d0 d1 d1' : Nat} (h0 : d0 < 256) (h1 : d1 < 256)
    (h1' : d1' < 256) (hne : d1 ≠ d1') : checksum [d0, d1] ≠ checksum [d0, d1'] := by
  intro h
  rw [checksum_pair, checksum_pair] at h
  exact hne (crcByteStep_inj (crcByteStep_lt (by norm_num) h0) h1 h1' h)

lemma xor_shift_ne (a j : Nat) : a ^^^ (1 <<< j) ≠ a := by
  intro h
  have h0 : a ^^^ (1 <<< j) = a ^^^ 0 := by simpa using h
  have hz : (1 <<< j) = 0 := Nat.xor_right_inj.mp h0
  have hpow : (1 <<< j) = 2 ^ j := by simp [Nat.shiftLeft_eq]
  rw [hpow] at hz
  exact (Nat.two_pow_pos j).ne' hz

lemma shift_lt_256 {j : Nat} (hj : j < 8) : (1 <<< j) < 256 := by
  have hpow : (1 <<< j) = 2 ^ j := by simp [Nat.shiftLeft_eq]
  rw [hpow]
  calc 2 ^ j < 2 ^ 8 := Nat.pow_lt_pow_right (by norm_num) hj
    _ = 256 := by norm_num

/-- C1: the CRC-8 of sht4x.go round-trips on every 2-byte input — verification
of data ++ [checksum data] succeeds — and flipping any single bit of the
3-byte block makes verification fail. -/
theorem C1_checksum_roundtrip_flip (d0 d1 : Nat) (h0 : d0 < 256) (h1 : d1 < 256) :
    verifyChecksum [d0, d1, checksum [d0, d1]] = none
    ∧ ∀ i, i < 24 →
        verifyChecksum (flipBlock [d0, d1, checksum [d0, d1]] i) ≠ none := by
  constructor
  · simp [verifyChecksum]
  · intro i hi hcontra
    have hm : (1 <<< (i % 8)) < 256 := shift_lt_256 (Nat.mod_lt i (by norm_num))
    rcases Nat.lt_or_ge i 8 with h8 | h8
    · have hdiv : i / 8 = 0 := by omega
      simp only [flipBlock, hdiv, List.getD_cons_zero, List.set_cons_zero] at hcontra
      simp only [verifyChecksum, List.length_cons, List.length_nil, List.take,
        List.getD_cons_succ, List.getD_cons_zero, ite_eq_right_iff] at hcontra
      have heq : checksum [d0, d1] = checksum [d0 ^^^ (1 <<< (i % 8)), d1] := by
        by_contra hne
        simp [hne] at hcontra
      exact checksum_pair_ne_left h0 (xor_lt_256 h0 hm) h1
        (Ne.symm (xor_shift_ne d0 (i % 8))) heq
    · rcases Nat.lt_or_ge i 16 with h16 | h16
      · have hdiv : i / 8 = 1 := by omega
        simp only [flipBlock, hdiv, List.getD_cons_succ, List.getD_cons_zero,
          List.set_cons_succ, List.set_cons_zero] at hcontra
        simp only [verifyChecksum, List.length_cons, List.length_nil, List.take,
          List.getD_cons_succ, List.getD_cons_zero, ite_eq_right_iff] at hcontra
        have heq : checksum [d0, d1] = checksum [d0, d1 ^^^ (1 <<< (i % 8))] := by
          by_contra hne
          simp [hne] at hcontra
        exact checksum_pair_ne_right h0 h1 (xor_lt_256 h1 hm)
          (Ne.symm (xor_shift_ne d1 (i % 8))) heq
      · have hdiv : i / 8 = 2 := by omega
        simp only [flipBlock, hdiv, List.getD_cons_succ, List.getD_cons_zero,
          List.set_cons_succ, List.set_cons_zero] at hcontra
        simp only [verifyChecksum, List.length_cons, List.length_nil, List.take,
          List.getD_cons_succ, List.getD_cons_zero, ite_eq_right_iff] at hcontra
        have heq : checksum [d0, d1] ^^^ (1 <<< (i % 8)) = checksum [d0, d1] := by
          by_contra hne
          simp [hne] at hcontra
        exact xor_shift_ne (checksum [d0, d1]) (i % 8) heq

/-- Witness for C1 at the concrete data bytes 0xBE, 0xEF. -/
theorem C1_witness :
    verifyChecksum [0xBE, 0xEF, checksum [0xBE, 0xEF]] = none
    ∧ ∀ i, i < 24 →
        verifyChecksum (flipBlock [0xBE, 0xEF, checksum [0xBE, 0xEF]] i) ≠ none :=
  C1_checksum_roundtrip_flip 0xBE 0xEF (by norm_num) (by norm_num)

/-- The bus sequence that the spec's reading of a heater activation asserts,
following the spec's words: send the mode's command byte, sleep the stated
hold duration, then a full measurement read per spec section 4.3
(measurement opcode, 10 ms wait, 6-byte read). -/
def claimedSeq (cmd hold : Nat) : List BusEvent :=
  [BusEvent.tx [cmd] 0, BusEvent.sleep hold,
    BusEvent.tx [commandMeasureHighPrecision] 0, BusEvent.sleep 10,
    BusEvent.tx [] 6]

/-- The per-mode claimed sequence, with the spec's stated hold durations of
100 ms for short variants and 1100 ms for long variants. -/
def claimedHeaterEvents (mode : Int) : Option (List BusEvent) :=
  if mode = HeaterLow then some (claimedSeq commandHeaterLow100ms 100)
  else if mode = HeaterLowLong then some (claimedSeq commandHeaterLow1s 1100)
  else if mode = HeaterMedium then some (claimedSeq commandHeaterMedium100ms 100)
  else if mode = HeaterMediumLong then some (claimedSeq commandHeaterMedium1s 1100)
  else if mode = HeaterHigh then some (claimedSeq commandHeaterHigh100ms 100)
  else if mode = HeaterHighLong then some (claimedSeq commandHeaterHigh1s 1100)
  else none

/-- C4 counterexample: for HeaterLow the actual bus sequence (command byte,
110 ms sleep, direct 6-byte read) differs from the claimed one (command byte,
100 ms sleep, measurement opcode, 10 ms wait, 6-byte read). -/
theorem C4_counterexample :
    some (ActivateHeater ⟨10, 0, false⟩ HeaterLow []).1
      ≠ claimedHeaterEvents HeaterLow := by
  decide

/-- C4 amended: each of the six valid heater modes sends its command byte,
sleeps 110 ms (short variants) or 1100 ms (long variants), then directly
reads 6 bytes as two checksummed blocks and converts them, with no separate
measurement opcode and no additional measurement delay. -/
theorem C4_heater_sequence (d : Dev) (data : List Nat) :
    ActivateHeater d HeaterLow data
      = ([BusEvent.tx [commandHeaterLow100ms] 0, BusEvent.sleep 110,
          BusEvent.tx [] 6], (parseTemperature data).2)
    ∧ ActivateHeater d HeaterLowLong data
      = ([BusEvent.tx [commandHeaterLow1s] 0, BusEvent.sleep 1100,
          BusEvent.tx [] 6], (parseTemperature data).2)
    ∧ ActivateHeater d HeaterMedium data
      = ([BusEvent.tx [commandHeaterMedium100ms] 0, BusEvent.sleep 110,
          BusEvent.tx [] 6], (parseTemperature data).2)
    ∧ ActivateHeater d HeaterMediumLong data
      = ([BusEvent.tx [commandHeaterMedium1s] 0, BusEvent.sleep 1100,
          BusEvent.tx [] 6], (parseTemperature data).2)
    ∧ ActivateHeater d HeaterHigh data
      = ([BusEvent.tx [commandHeaterHigh100ms] 0, BusEvent.sleep 110,
          BusEvent.tx [] 6], (parseTemperature data).2)
    ∧ ActivateHeater d HeaterHighLong data
      = ([BusEvent.tx [commandHeaterHigh1s] 0, BusEvent.sleep 1100,
          BusEvent.tx [] 6], (parseTemperature data).2) :=
  ⟨rfl, rfl, rfl, rfl, rfl, rfl⟩

/-- C5: on a 6-byte serial response whose two blocks verify, the serial
number is assembled from bytes 0, 1, 3, 4, the CRC bytes excluded. -/
theorem C5_serial (a b c1 c d c2 : Nat)
    (ha : a < 256) (hb : b < 256) (hc : c < 256) (hd : d < 256)
    (h1 : verifyChecksum [a, b, c1] = none) (h2 : verifyChecksum [c, d, c2] = none) :
    (GetSerial [a, b, c1, c, d, c2]).2
      = Except.ok (a <<< 24 ||| b <<< 16 ||| c <<< 8 ||| d) := by
  have ht : ([a, b, c1, c, d, c2] : List Nat).take 3 = [a, b, c1] := rfl
  have hdr : ([a, b, c1, c, d, c2] : List Nat).drop 3 = [c, d, c2] := rfl
  simp only [GetSerial, ht, hdr, h1, h2]
  rfl

/-- Witness for C5 at the concrete response [0xBE, 0xEF, 146, 0x12, 0x34, 55]. -/
theorem C5_witness :
    (GetSerial [0xBE, 0xEF, 146, 0x12, 0x34, 55]).2
      = Except.ok (0xBE <<< 24 ||| 0xEF <<< 16 ||| 0x12 <<< 8 ||| 0x34) :=
  C5_serial 0xBE 0xEF 146 0x12 0x34 55 (by norm_num) (by norm_num) (by norm_num)
    (by norm_num) (by decide) (by decide)

/-- C6: a single-shot Sense on a handle whose continuous-sampling channel is
present returns the already-sensing error with an empty bus trace. -/
theorem C6_sense_already_sensing (d : Dev) (data : List Nat) (h : d.stop = true) :
    Sense d data = ([], Except.error Err.alreadySensing) := by
  simp [Sense, h]

/-- Witness for C6 on a handle with the continuous-sampling flag set. -/
theorem C6_witness :
    Sense ⟨10, 0, true⟩ [] = ([], Except.error Err.alreadySensing) :=
  C6_sense_already_sensing ⟨10, 0, true⟩ [] rfl

/-- C7: a mode outside the six heater variants yields the invalid-mode error
and an empty bus trace. -/
theorem C7_invalid_mode (d : Dev) (mode : Int) (data : List Nat)
    (h : mode ≠ HeaterLow ∧ mode ≠ HeaterLowLong ∧ mode ≠ HeaterMedium ∧
      mode ≠ HeaterMediumLong ∧ mode ≠ HeaterHigh ∧ mode ≠ HeaterHighLong) :
    ActivateHeater d mode data = ([], Except.error Err.invalidMode) := by
  obtain ⟨h1, h2, h3, h4, h5, h6⟩ := h
  simp [ActivateHeater, heaterCmd, h1, h2, h3, h4, h5, h6]

/-- Witness for C7 at mode 42. -/
theorem C7_witness :
    ActivateHeater ⟨10, 0, false⟩ 42 [] = ([], Except.error Err.invalidMode) :=
  C7_invalid_mode ⟨10, 0, false⟩ 42 []
    ⟨by decide, by decide, by decide, by decide, by decide, by decide⟩

/-- C8: Halt never errors, a second Halt right after a first one is a no-op
leaving the handle unchanged, and Halt on a handle that never started
continuous sampling (stop flag absent) is a no-op. -/
theorem C8_halt_idempotent (d : Dev) :
    (Halt d).2 = none
    ∧ Halt (Halt d).1 = ((Halt d).1, none)
    ∧ Halt (setStop d false) = (setStop d false, none) := by
  refine ⟨?_, ?_, ?_⟩
  · by_cases h : d.stop <;> simp [Halt, h]
  · by_cases h : d.stop <;> simp [Halt, setStop, h]
  · simp [Halt, setStop]

/-- C9: SenseContinuous always returns a non-nil channel and a nil error,
for every interval and every starting state, and leaves the handle with a
running worker. -/
theorem C9_senseContinuous_total (d : Dev) (interval : Nat) :
    (SenseContinuous d interval).2.1 = true
    ∧ (SenseContinuous d interval).2.2 = none
    ∧ (SenseContinuous d interval).1.stop = true := by
  refine ⟨rfl, rfl, ?_⟩
  by_cases h : d.stop <;> simp [SenseContinuous, setStop, h]

/-- The nil-length and bad-CRC errors are the only outcomes of
verifyChecksum besides success. -/
lemma verifyChecksum_cases (l : List Nat) :
    verifyChecksum l = none ∨ verifyChecksum l = some Err.invalidDataLength
      ∨ verifyChecksum l = some Err.invalidChecksum := by
  unfold verifyChecksum
  split_ifs <;> simp

/-- parseTemperature never produces the already-sensing error. -/
lemma parseTemperature_no_alreadySensing (data : List Nat) :
    (parseTemperature data).2 ≠ Except.error Err.alreadySensing := by
  rcases verifyChecksum_cases (data.take 3) with h1 | h1 | h1 <;>
    rcases verifyChecksum_cases (data.drop 3) with h2 | h2 | h2 <;>
      simp [parseTemperature, h1, h2]

/-- C10: ActivateHeater never consults the continuous-sampling flag; with the
flag set it never returns the already-sensing error and behaves exactly as on
any other handle state. -/
theorem C10_heater_ignores_sensing_flag (d d' : Dev) (mode : Int) (data : List Nat)
    (h : d.stop = true) :
    (ActivateHeater d mode data).2 ≠ Except.error Err.alreadySensing
    ∧ ActivateHeater d mode data = ActivateHeater d' mode data := by
  refine ⟨?_, rfl⟩
  cases hm : heaterCmd mode with
  | none => simp [ActivateHeater, hm]
  | some ci =>
    simpa [ActivateHeater, hm] using parseTemperature_no_alreadySensing data

/-- Witness for C10: heater activation on a handle that is sensing
continuously, compared against the idle handle. -/
theorem C10_witness :
    (ActivateHeater ⟨10, 0, true⟩ HeaterLow []).2 ≠ Except.error Err.alreadySensing
    ∧ ActivateHeater ⟨10, 0, true⟩ HeaterLow [] = ActivateHeater ⟨10, 0, false⟩ HeaterLow [] :=
  C10_heater_ignores_sensing_flag ⟨10, 0, true⟩ ⟨10, 0, false⟩ HeaterLow [] rfl

end SHT4X
